import Mathlib

/-!
Verification of the SpaceTraders gateway (`src/spacetraders_utils.py` and the
registration handler of `src/main.py`).

Embedding conventions:
* Wall-clock time is modelled by exact rationals (ℚ); `time.sleep(d)` is
  idealised as advancing the clock by exactly `d`, and `datetime.now()` reads
  the current clock.  Float arithmetic in the source is modelled as exact
  rational arithmetic.
* Python dictionaries (the token map and the header map) are modelled as
  insertion-ordered association lists with at most one binding per key:
  `dictGet` is `dict.get`, `dictSet` is `dict[k] = v` (update in place if the
  key exists, append otherwise).
* Python truthiness of an optional string (`if not self.account_token`,
  `if agent_symbol and (token := ...)`) is `pyTruthy`: `None` and the empty
  string are falsy.
* The token file together with the `json` library is modelled abstractly by
  `FileData`: the file is absent, holds a JSON object of strings (what
  `json.load` would return), is present but not valid JSON (`json.load`
  raises), or is unreadable (`open` raises).
* The side effects of one `make_request` call are recorded as an event trace
  (`Event`): a sleep, the write to `last_request_time`, and the outbound
  network call carrying the fully built request.
-/

/-- Constant `RATE_LIMIT_REQUESTS = 2` (requests per period) from
`spacetraders_utils.py`. -/
def RATE_LIMIT_REQUESTS : ℚ := 2

/-- Constant `RATE_LIMIT_PERIOD = 1` (seconds) from `spacetraders_utils.py`. -/
def RATE_LIMIT_PERIOD : ℚ := 1

/-- The minimum inter-request interval `1.0 / RATE_LIMIT_REQUESTS` used in
`_rate_limit` (the spec's `minInterval = period / requestsPerPeriod`). -/
def minInterval : ℚ := 1 / RATE_LIMIT_REQUESTS

/-- Lookup in a Python dict modelled as an association list (`d.get(k)`). -/
def dictGet (d : List (String × String)) (k : String) : Option String :=
  match d with
  | [] => none
  | (k', v) :: rest => if k' = k then some v else dictGet rest k

/-- Assignment `d[k] = v` on a Python dict: replaces the binding in place when
the key is present, appends it otherwise. -/
def dictSet (d : List (String × String)) (k v : String) : List (String × String) :=
  match d with
  | [] => [(k, v)]
  | (k', v') :: rest =>
    if k' = k then (k, v) :: rest else (k', v') :: dictSet rest k v

/-- Python truthiness of an optional string: `None` and `""` are falsy. -/
def pyTruthy (o : Option String) : Bool :=
  match o with
  | none => false
  | some s => !(s = "")

/-- Abstract content of the token file as seen through `open` + `json.load`:
the object `json.load` returns, a present-but-malformed file on which
`json.load` raises, or a file on which `open` itself raises. -/
inductive FileData
  | jsonObj : List (String × String) → FileData
  | malformed : FileData
  | unreadable : FileData
deriving DecidableEq, Repr

/-- The abstract exception raised by `_load_tokens` when the file exists but
cannot be read or parsed (the spec's `StorageError`; concretely an uncaught
`OSError` or `json.JSONDecodeError`). -/
inductive LoadError
  | storageError
deriving DecidableEq, Repr

/-- The local exception raised by `make_request` when `use_account_token` is
set but no account token is configured (the spec's `MissingCredentialError`;
concretely `ValueError("SPACETRADERS_API_KEY not found ...")`). -/
inductive DispatchError
  | missingCredential
deriving DecidableEq, Repr

/-- The outbound HTTP request handed to `requests.request`: method, full URL,
headers, optional serialized body (`data`). -/
structure HttpRequest where
  method : String
  url : String
  headers : List (String × String)
  body : Option String
deriving DecidableEq, Repr

/-- One observable side effect of a dispatch: a `time.sleep`, the write to
`self.last_request_time`, or the outbound network call. -/
inductive Event
  | sleep : ℚ → Event
  | setLastRequest : ℚ → Event
  | networkCall : HttpRequest → Event
deriving DecidableEq, Repr

/-- Predicate picking out network-call events. -/
def isNetworkCall : Event → Bool
  | Event.networkCall _ => true
  | _ => false

/-- Predicate picking out writes to `last_request_time`. -/
def isSetLastRequest : Event → Bool
  | Event.setLastRequest _ => true
  | _ => false

/-- The mutable state of the `SpaceTradersClient` instance together with the
token file it persists to: `base_url`, `self.tokens`, `self.last_request_time`,
`self.account_token` (from the environment), and the backing file. -/
structure ClientState where
  base_url : String
  tokens : List (String × String)
  last_request_time : ℚ
  account_token : Option String
  tokens_file : Option FileData
deriving DecidableEq, Repr

/-- Method `_load_tokens`: returns `{}` when the file does not exist, the
parsed object when `json.load` succeeds, and propagates the exception
(`StorageError`) when the file is malformed or unreadable. -/
def load_tokens (file : Option FileData) : Except LoadError (List (String × String)) :=
  match file with
  | none => Except.ok []
  | some (FileData.jsonObj m) => Except.ok m
  | some FileData.malformed => Except.error LoadError.storageError
  | some FileData.unreadable => Except.error LoadError.storageError

/-- Method `_save_tokens`: writes `self.tokens` to the token file as a JSON
object (`json.dump(self.tokens, f, indent=2)`). -/
def save_tokens (st : ClientState) : ClientState :=
  { st with tokens_file := some (FileData.jsonObj st.tokens) }

/-- Method `store_token`: `self.tokens[agent_symbol] = token` followed by
`self._save_tokens()`. -/
def store_token (st : ClientState) (agent_symbol token : String) : ClientState :=
  save_tokens { st with tokens := dictSet st.tokens agent_symbol token }

/-- Method `get_token`: `self.tokens.get(agent_symbol)`. -/
def get_token (st : ClientState) (agent_symbol : String) : Option String :=
  dictGet st.tokens agent_symbol

/-- Method `_rate_limit` (the spec's `acquire()`): reads the clock, sleeps for
`minInterval - elapsed` when `elapsed < minInterval`, then sets
`last_request_time` to the (post-sleep) current time.  Returns the event
trace, the updated state and the advanced clock. -/
def rate_limit (st : ClientState) (clock : ℚ) : List Event × ClientState × ℚ :=
  let elapsed := clock - st.last_request_time
  if elapsed < minInterval then
    let sleep_time := minInterval - elapsed
    let now2 := clock + sleep_time
    ([Event.sleep sleep_time, Event.setLastRequest now2],
      { st with last_request_time := now2 }, now2)
  else
    ([Event.setLastRequest clock], { st with last_request_time := clock }, clock)

/-- The condition `endpoint.lstrip('/')`: strip all leading slashes. -/
def lstripSlash (s : String) : String :=
  String.mk (s.toList.dropWhile (fun c => c = '/'))

/-- The `elif agent_symbol and (token := self.get_token(agent_symbol))` guard:
yields the token to attach exactly when `agent_symbol` is truthy (not `None`,
not empty) and the stored token exists and is truthy. -/
def agentTokenLookup (st : ClientState) (agent_symbol : Option String) : Option String :=
  match agent_symbol with
  | none => none
  | some s =>
    if s = "" then none
    else
      match get_token st s with
      | none => none
      | some t => if t = "" then none else some t

/-- Method `make_request` (the spec's `dispatch`): rate-limits, builds the URL
and headers (forcing `Content-Type: application/json`), resolves the
credential with precedence `use_account_token` > agent lookup > none, raising
`ValueError` when `use_account_token` is set without a configured account
token, and finally issues the network call.  Returns the event trace, the
updated client state, the advanced clock, and either the dispatched request or
the local error.  In the source the credential reads happen on `self` after
`self._rate_limit()`; since `_rate_limit` writes only `last_request_time`,
they are reads of the original `tokens` and `account_token` fields, and the
embedding reads them from `st`. -/
def make_request (st : ClientState) (clock : ℚ) (method endpoint : String)
    (agent_symbol : Option String) (use_account_token : Bool)
    (hdrs : List (String × String)) (data : Option String) :
    List Event × ClientState × ℚ × Except DispatchError HttpRequest :=
  let r := rate_limit st clock
  let url := st.base_url ++ "/" ++ lstripSlash endpoint
  let headers := dictSet hdrs "Content-Type" "application/json"
  if use_account_token then
    if pyTruthy st.account_token then
      let headers := dictSet headers "Authorization"
        ("Bearer " ++ st.account_token.getD "")
      let req : HttpRequest := ⟨method, url, headers, data⟩
      (r.1 ++ [Event.networkCall req], r.2.1, r.2.2, Except.ok req)
    else
      (r.1, r.2.1, r.2.2, Except.error DispatchError.missingCredential)
  else
    match agentTokenLookup st agent_symbol with
    | some t =>
      let headers := dictSet headers "Authorization" ("Bearer " ++ t)
      let req : HttpRequest := ⟨method, url, headers, data⟩
      (r.1 ++ [Event.networkCall req], r.2.1, r.2.2, Except.ok req)
    | none =>
      let req : HttpRequest := ⟨method, url, headers, data⟩
      (r.1 ++ [Event.networkCall req], r.2.1, r.2.2, Except.ok req)

/-- JSON values as returned by `response.json()`, restricted to the shapes the
registration handler touches. -/
inductive Json
  | null
  | str : String → Json
  | num : Int → Json
  | obj : List (String × Json) → Json

/-- Lookup of a key in a JSON object's field list. -/
def jsonLookup (fields : List (String × Json)) (key : String) : Option Json :=
  match fields with
  | [] => none
  | (k, v) :: rest => if k = key then some v else jsonLookup rest key

/-- Python `j.get(key, dflt)`: defined on dicts, raises `AttributeError`
(modelled as `none`) on any other value. -/
def pyGet (j : Json) (key : String) (dflt : Json) : Option Json :=
  match j with
  | Json.obj fields => some ((jsonLookup fields key).getD dflt)
  | _ => none

/-- The response-handling tail of `Register_Users` in `main.py` (after the
dispatch): on status 201 it extracts `data.token`, `data.agent.symbol` and
`data.agent.startingFaction`, stores the token and returns the success
message; on any other status it extracts `error.message` (default
`"Unknown error"`) and returns the failure message, leaving the store alone.
Paths outside the claims' domain — a non-dict where `.get` is called (Python
raises `AttributeError`, caught by the surrounding `except`) or extracted
values that are not strings (the `String`-keyed token model cannot hold
them) — are mapped to `none`. -/
def register_handle_response (st : ClientState) (status : Nat) (body : Json) :
    Option (String × ClientState) :=
  if status = 201 then
    match pyGet body "data" (Json.obj []) with
    | none => none
    | some data =>
      match pyGet data "token" Json.null, pyGet data "agent" (Json.obj []) with
      | some token, some agent =>
        match pyGet agent "symbol" Json.null, pyGet agent "startingFaction" Json.null with
        | some sym, some fac =>
          match sym, token, fac with
          | Json.str s, Json.str t, Json.str f =>
            some ("Successfully registered agent " ++ s ++ " with faction " ++ f ++
              ". Token has been stored for future use.", store_token st s t)
          | _, _, _ => none
        | _, _ => none
      | _, _ => none
  else
    match pyGet body "error" (Json.obj []) with
    | none => none
    | some err =>
      match pyGet err "message" (Json.str "Unknown error") with
      | some (Json.str m) =>
        some ("Registration failed: " ++ m ++ " (Status code: " ++
          toString status ++ ")", st)
      | _ => none

/-! Helper lemmas about the dictionary model and the rate limiter. -/

/-- Reading back the key just written returns the written value. -/
theorem dictGet_dictSet_self (d : List (String × String)) (k v : String) :
    dictGet (dictSet d k v) k = some v := by
  induction d with
  | nil => simp [dictSet, dictGet]
  | cons hd tl ih =>
    obtain ⟨k', v'⟩ := hd
    by_cases h : k' = k
    · simp [dictSet, dictGet, h]
    · simp [dictSet, dictGet, h, ih]

/-- Writing one key leaves every other key unchanged. -/
theorem dictGet_dictSet_ne (d : List (String × String)) (k v k₁ : String)
    (h : k₁ ≠ k) : dictGet (dictSet d k v) k₁ = dictGet d k₁ := by
  have hk : ¬ k = k₁ := fun hkk => h hkk.symm
  induction d with
  | nil => simp [dictSet, dictGet, hk]
  | cons hd tl ih =>
    obtain ⟨k', v'⟩ := hd
    by_cases hkk' : k' = k
    · subst hkk'
      simp [dictSet, dictGet, hk]
    · by_cases hk₁ : k' = k₁ <;> simp [dictSet, dictGet, hkk', hk₁, h, ih]

/-- The rate-limiter trace: an exact sleep when the elapsed time is short,
then the single timestamp write. -/
theorem rate_limit_trace (st : ClientState) (clock : ℚ) :
    (rate_limit st clock).1 =
      if clock - st.last_request_time < minInterval then
        [Event.sleep (minInterval - (clock - st.last_request_time)),
          Event.setLastRequest (clock + (minInterval - (clock - st.last_request_time)))]
      else [Event.setLastRequest clock] := by
  simp only [rate_limit]
  split <;> rfl

/-- The clock after `rate_limit` advances by exactly the sleep amount. -/
theorem rate_limit_clock (st : ClientState) (clock : ℚ) :
    (rate_limit st clock).2.2 =
      clock + (if clock - st.last_request_time < minInterval then
        minInterval - (clock - st.last_request_time) else 0) := by
  simp only [rate_limit]
  split
  · rfl
  · simp

/-- The state after `rate_limit` differs from the input state only in
`last_request_time`, which holds the post-sleep clock. -/
theorem rate_limit_state (st : ClientState) (clock : ℚ) :
    (rate_limit st clock).2.1 =
      { st with last_request_time := (rate_limit st clock).2.2 } := by
  simp only [rate_limit]
  split <;> rfl

/-- The rate limiter writes the timestamp exactly once. -/
theorem rate_limit_countP_setLast (st : ClientState) (clock : ℚ) :
    List.countP isSetLastRequest (rate_limit st clock).1 = 1 := by
  simp only [rate_limit]
  split <;> simp [List.countP, List.countP.go, isSetLastRequest]

/-- The rate limiter makes no network call. -/
theorem rate_limit_countP_net (st : ClientState) (clock : ℚ) :
    List.countP isNetworkCall (rate_limit st clock).1 = 0 := by
  simp only [rate_limit]
  split <;> simp [List.countP, List.countP.go, isNetworkCall]

/-- Consecutive sequential `rate_limit` calls space the recorded timestamps by
at least `minInterval` (supporting fact for the spec's rate-limit invariant in
the sequential execution model). -/
theorem rate_limit_spacing (st : ClientState) (clock : ℚ) :
    st.last_request_time + minInterval ≤ (rate_limit st clock).2.1.last_request_time := by
  simp only [rate_limit]
  split
  case isTrue h => simp only; linarith
  case isFalse h => simp only; linarith [not_lt.mp h]

/-! Claim theorems. -/

/-- C1: for every dispatch with `use_account_token = true` (and a configured,
truthy account token), the outgoing request's Authorization header carries the
account credential `Bearer <account token>`, for every `agent_symbol` — even
one with a stored token; precedence is account > identity lookup > none. -/
theorem account_credential_precedence (st : ClientState) (clock : ℚ)
    (method endpoint : String) (agent_symbol : Option String)
    (hdrs : List (String × String)) (data : Option String) (a : String)
    (hacct : st.account_token = some a) (ha : a ≠ "") :
    ∃ req, (make_request st clock method endpoint agent_symbol true hdrs data).2.2.2
        = Except.ok req ∧
      dictGet req.headers "Authorization" = some ("Bearer " ++ a) := by
  refine ⟨⟨method, st.base_url ++ "/" ++ lstripSlash endpoint,
    dictSet (dictSet hdrs "Content-Type" "application/json") "Authorization"
      ("Bearer " ++ a), data⟩, ?_, ?_⟩
  · simp [make_request, hacct, pyTruthy, ha]
  · exact dictGet_dictSet_self _ _ _

/-- Witness for C1: an account token `acct-tok` wins over the stored agent
token `agent-tok` of the supplied identity `ALPHA`. -/
theorem account_credential_precedence_witness :
    ∃ req, (make_request ⟨"https://api.spacetraders.io/v2", [("ALPHA", "agent-tok")],
        0, some "acct-tok", none⟩ 0 "GET" "my/agent" (some "ALPHA") true [] none).2.2.2
        = Except.ok req ∧
      dictGet req.headers "Authorization" = some ("Bearer " ++ "acct-tok") :=
  account_credential_precedence _ 0 "GET" "my/agent" (some "ALPHA") [] none
    "acct-tok" rfl (by decide)

/-- C2 counterexample: a dispatch that supplies an identity with no stored
token but whose caller-supplied extra headers contain an Authorization entry
sends the request WITH an Authorization header (the caller's headers are
forwarded), so the claim "the request is sent with no Authorization header"
fails as stated over all dispatch calls. -/
theorem unauth_fallback_counterexample :
    ∃ req, (make_request ⟨"u", [], 0, none, none⟩ 1 "GET" "factions" (some "GHOST")
        false [("Authorization", "Bearer stale")] none).2.2.2 = Except.ok req ∧
      dictGet req.headers "Authorization" = some "Bearer stale" := by
  refine ⟨⟨"GET", "u/factions",
    [("Authorization", "Bearer stale"), ("Content-Type", "application/json")], none⟩, ?_, ?_⟩
  · simp [make_request, agentTokenLookup, get_token, dictGet, dictSet, lstripSlash]
  · simp [dictGet]

/-- C2 (amended): for every dispatch supplying an identity without
`use_account_token`, if the store has no token for that identity, the
dispatcher attaches no Authorization header of its own and does not raise; in
particular when the caller's extra headers carry no Authorization entry, the
request is sent with no Authorization header. -/
theorem unauth_fallback_no_header (st : ClientState) (clock : ℚ)
    (method endpoint s : String) (hdrs : List (String × String)) (data : Option String)
    (hnotok : get_token st s = none) (hnoauth : dictGet hdrs "Authorization" = none) :
    ∃ req, (make_request st clock method endpoint (some s) false hdrs data).2.2.2
        = Except.ok req ∧
      dictGet req.headers "Authorization" = none := by
  have hlook : agentTokenLookup st (some s) = none := by
    by_cases hs : s = "" <;> simp [agentTokenLookup, hs, hnotok]
  refine ⟨⟨method, st.base_url ++ "/" ++ lstripSlash endpoint,
    dictSet hdrs "Content-Type" "application/json", data⟩, ?_, ?_⟩
  · simp [make_request, hlook]
  · rw [dictGet_dictSet_ne _ _ _ _ (by decide)]
    exact hnoauth

/-- Witness for C2 (amended): identity `GHOST` has no stored token and the
caller supplies no headers; the request goes out without Authorization. -/
theorem unauth_fallback_no_header_witness :
    ∃ req, (make_request ⟨"u", [("ALPHA", "tok123")], 0, none, none⟩ 1 "GET"
        "factions" (some "GHOST") false [] none).2.2.2 = Except.ok req ∧
      dictGet req.headers "Authorization" = none :=
  unauth_fallback_no_header _ 1 "GET" "factions" "GHOST" [] none (by decide) rfl

/-- C3: for every dispatch with `use_account_token = true` and no configured
(truthy) account token, `make_request` fails with the local missing-credential
error and its trace contains no network call. -/
theorem missing_credential_fails_locally (st : ClientState) (clock : ℚ)
    (method endpoint : String) (agent_symbol : Option String)
    (hdrs : List (String × String)) (data : Option String)
    (h : pyTruthy st.account_token = false) :
    (make_request st clock method endpoint agent_symbol true hdrs data).2.2.2 =
      Except.error DispatchError.missingCredential ∧
    List.countP isNetworkCall
      (make_request st clock method endpoint agent_symbol true hdrs data).1 = 0 := by
  constructor
  · simp [make_request, h]
  · simp [make_request, h, rate_limit_countP_net st clock]

/-- Witness for C3: with `account_token = none`, a registration dispatch fails
locally and attempts no network call. -/
theorem missing_credential_fails_locally_witness :
    (make_request ⟨"u", [], 0, none, none⟩ 1 "POST" "register" none true [] none).2.2.2 =
      Except.error DispatchError.missingCredential ∧
    List.countP isNetworkCall
      (make_request ⟨"u", [], 0, none, none⟩ 1 "POST" "register" none true [] none).1 = 0 :=
  missing_credential_fails_locally _ 1 "POST" "register" none [] none rfl

/-- C6: `_load_tokens` yields the empty mapping when the file is absent, fails
with `StorageError` when the file exists but is malformed or unreadable, and
never yields any mapping from a malformed file. -/
theorem load_tokens_spec :
    load_tokens none = Except.ok [] ∧
    load_tokens (some FileData.malformed) = Except.error LoadError.storageError ∧
    load_tokens (some FileData.unreadable) = Except.error LoadError.storageError ∧
    ∀ m : List (String × String), load_tokens (some FileData.malformed) ≠ Except.ok m :=
  ⟨rfl, rfl, rfl, fun m h => by simp [load_tokens] at h⟩

/-- C7: `store_token` followed by `get_token` on the same identity returns
exactly the stored token, and reloading a persisted token mapping returns it
identically. -/
theorem credential_roundtrip (st : ClientState) (sym tok : String) :
    get_token (store_token st sym tok) sym = some tok ∧
    ∀ S : ClientState, load_tokens (save_tokens S).tokens_file = Except.ok S.tokens := by
  constructor
  · simp [get_token, store_token, save_tokens, dictGet_dictSet_self]
  · intro S
    rfl

/-- The timestamp stored by `rate_limit` is the post-sleep clock it returns. -/
theorem rate_limit_last (st : ClientState) (clock : ℚ) :
    (rate_limit st clock).2.1.last_request_time = (rate_limit st clock).2.2 := by
  rw [rate_limit_state]

/-- Every run of `make_request` is either a dispatch (rate-limiter events
followed by exactly the one network call, result `ok`) or a local
missing-credential failure (rate-limiter events only, result `error`). -/
theorem make_request_cases (st : ClientState) (clock : ℚ) (method endpoint : String)
    (agent_symbol : Option String) (use_account_token : Bool)
    (hdrs : List (String × String)) (data : Option String) :
    (∃ req, make_request st clock method endpoint agent_symbol use_account_token hdrs data
        = ((rate_limit st clock).1 ++ [Event.networkCall req], (rate_limit st clock).2.1,
          (rate_limit st clock).2.2, Except.ok req)) ∨
    make_request st clock method endpoint agent_symbol use_account_token hdrs data
      = ((rate_limit st clock).1, (rate_limit st clock).2.1, (rate_limit st clock).2.2,
        Except.error DispatchError.missingCredential) := by
  simp only [make_request]
  split
  · split
    · exact Or.inl ⟨_, rfl⟩
    · exact Or.inr rfl
  · split
    · exact Or.inl ⟨_, rfl⟩
    · exact Or.inl ⟨_, rfl⟩

/-- C4: `_rate_limit` sleeps for exactly `minInterval - elapsed` when
`elapsed < minInterval` (and not at all otherwise), then unconditionally
writes `last_request_time` — exactly once — with the post-sleep current time,
touching no other client state. -/
theorem rate_limit_acquire_spec (st : ClientState) (clock : ℚ) :
    (clock - st.last_request_time < minInterval →
      (rate_limit st clock).1 =
        [Event.sleep (minInterval - (clock - st.last_request_time)),
          Event.setLastRequest ((rate_limit st clock).2.2)]) ∧
    (¬ clock - st.last_request_time < minInterval →
      (rate_limit st clock).1 = [Event.setLastRequest clock]) ∧
    List.countP isSetLastRequest (rate_limit st clock).1 = 1 ∧
    (rate_limit st clock).2.1 =
      { st with last_request_time := (rate_limit st clock).2.2 } ∧
    (rate_limit st clock).2.2 =
      clock + (if clock - st.last_request_time < minInterval then
        minInterval - (clock - st.last_request_time) else 0) := by
  refine ⟨?_, ?_, rate_limit_countP_setLast st clock, rate_limit_state st clock,
    rate_limit_clock st clock⟩
  · intro h
    rw [rate_limit_trace, rate_limit_clock]
    simp [h]
  · intro h
    rw [rate_limit_trace]
    simp [h]

/-- Witness for C4: with `last_request_time = 0` and the clock at `1/4`
(elapsed `1/4 < minInterval = 1/2`), the acquire sleeps exactly `1/4` and then
records the time `1/2`. -/
theorem rate_limit_acquire_spec_witness :
    (rate_limit ⟨"u", [], 0, none, none⟩ (1/4 : ℚ)).1 =
      [Event.sleep (1/4 : ℚ), Event.setLastRequest (1/2 : ℚ)] := by
  have hc : (1/4 : ℚ) - (0 : ℚ) < minInterval := by
    norm_num [minInterval, RATE_LIMIT_REQUESTS]
  have h := (rate_limit_acquire_spec ⟨"u", [], 0, none, none⟩ (1/4 : ℚ)).1 hc
  have h2 := (rate_limit_acquire_spec ⟨"u", [], 0, none, none⟩ (1/4 : ℚ)).2.2.2.2
  rw [h, h2, if_pos hc]
  norm_num [minInterval, RATE_LIMIT_REQUESTS]

/-- C5 counterexample: a dispatch that requires the account credential while
none is configured performs zero network calls, refuting "every dispatch()
invocation makes exactly one network call". -/
theorem dispatch_zero_network_calls_counterexample :
    List.countP isNetworkCall
      (make_request ⟨"u", [], 0, none, none⟩ 2 "POST" "register" none true
        [] (some "\x7b\x7d")).1 = 0 := by
  simp [make_request, pyTruthy, rate_limit_countP_net]

/-- C5 (amended): every `make_request` invocation consumes exactly one
rate-limiter slot — `last_request_time` is written exactly once, by the
rate-limiter events that precede any network call, and the returned state
carries the updated timestamp whatever the outcome; a dispatch that passes
the credential precondition makes exactly one network call (the final event),
while one that fails it locally makes none. -/
theorem dispatch_slot_and_network_spec (st : ClientState) (clock : ℚ)
    (method endpoint : String) (agent_symbol : Option String)
    (use_account_token : Bool) (hdrs : List (String × String)) (data : Option String) :
    List.countP isSetLastRequest
      (make_request st clock method endpoint agent_symbol use_account_token hdrs data).1 = 1 ∧
    List.countP isNetworkCall (rate_limit st clock).1 = 0 ∧
    (∀ req,
      (make_request st clock method endpoint agent_symbol use_account_token hdrs data).2.2.2
        = Except.ok req →
      (make_request st clock method endpoint agent_symbol use_account_token hdrs data).1
        = (rate_limit st clock).1 ++ [Event.networkCall req]) ∧
    (∀ e,
      (make_request st clock method endpoint agent_symbol use_account_token hdrs data).2.2.2
        = Except.error e →
      List.countP isNetworkCall
        (make_request st clock method endpoint agent_symbol use_account_token hdrs data).1 = 0) ∧
    (make_request st clock method endpoint agent_symbol use_account_token hdrs data).2.1.last_request_time
      = (rate_limit st clock).2.2 := by
  rcases make_request_cases st clock method endpoint agent_symbol use_account_token hdrs data with
    ⟨req, hmk⟩ | hmk <;> rw [hmk]
  · refine ⟨?_, rate_limit_countP_net st clock, ?_, ?_, rate_limit_last st clock⟩
    · simp [List.countP_append, rate_limit_countP_setLast st clock, isSetLastRequest]
    · intro req' hreq
      simp only [Except.ok.injEq] at hreq
      subst hreq
      rfl
    · intro e he
      simp at he
  · refine ⟨rate_limit_countP_setLast st clock, rate_limit_countP_net st clock, ?_, ?_,
      rate_limit_last st clock⟩
    · intro req' hreq
      simp at hreq
    · intro e he
      exact rate_limit_countP_net st clock

/-- Witness for C5 (amended): a successful authenticated GET dispatch has the
one network call as its final event, after the single timestamp write. -/
theorem dispatch_slot_and_network_spec_witness :
    List.countP isSetLastRequest
      (make_request ⟨"u", [("ALPHA", "tok123")], 0, none, none⟩ 1 "GET" "my/agent"
        (some "ALPHA") false [] none).1 = 1 ∧
    (make_request ⟨"u", [("ALPHA", "tok123")], 0, none, none⟩ 1 "GET" "my/agent"
        (some "ALPHA") false [] none).1 =
      (rate_limit ⟨"u", [("ALPHA", "tok123")], 0, none, none⟩ 1).1 ++
        [Event.networkCall ⟨"GET", "u/my/agent",
          [("Content-Type", "application/json"), ("Authorization", "Bearer tok123")], none⟩] := by
  have h := dispatch_slot_and_network_spec ⟨"u", [("ALPHA", "tok123")], 0, none, none⟩ 1
    "GET" "my/agent" (some "ALPHA") false [] none
  refine ⟨h.1, h.2.2.1 _ ?_⟩
  simp [make_request, agentTokenLookup, get_token, dictGet, dictSet, lstripSlash]

/-- Characterization of a successfully dispatched request's headers: the
caller's headers with `Content-Type` forced, plus the Authorization entry
dictated by the credential resolution. -/
theorem make_request_ok_headers (st : ClientState) (clock : ℚ)
    (method endpoint : String) (agent_symbol : Option String)
    (use_account_token : Bool) (hdrs : List (String × String))
    (data : Option String) (req : HttpRequest)
    (h : (make_request st clock method endpoint agent_symbol use_account_token hdrs data).2.2.2
      = Except.ok req) :
    req.headers =
      if use_account_token then
        dictSet (dictSet hdrs "Content-Type" "application/json") "Authorization"
          ("Bearer " ++ st.account_token.getD "")
      else
        match agentTokenLookup st agent_symbol with
        | some t => dictSet (dictSet hdrs "Content-Type" "application/json")
            "Authorization" ("Bearer " ++ t)
        | none => dictSet hdrs "Content-Type" "application/json" := by
  simp only [make_request] at h
  split at h
  case isTrue hu =>
    split at h
    · simp only [Except.ok.injEq] at h
      subst h
      simp [hu]
    · simp at h
  case isFalse hu =>
    split at h
    case h_1 t hl =>
      simp only [Except.ok.injEq] at h
      subst h
      simp [hu, hl]
    case h_2 hl =>
      simp only [Except.ok.injEq] at h
      subst h
      simp [hu, hl]

/-- C10: every dispatched request carries `Content-Type: application/json`
(overwriting any caller-supplied Content-Type); every other caller-supplied
header except Authorization is forwarded unchanged; and Authorization holds
the resolved credential when one was resolved. -/
theorem content_type_and_header_forwarding (st : ClientState) (clock : ℚ)
    (method endpoint : String) (agent_symbol : Option String)
    (use_account_token : Bool) (hdrs : List (String × String))
    (data : Option String) (req : HttpRequest)
    (h : (make_request st clock method endpoint agent_symbol use_account_token hdrs data).2.2.2
      = Except.ok req) :
    dictGet req.headers "Content-Type" = some "application/json" ∧
    (∀ k, k ≠ "Content-Type" → k ≠ "Authorization" →
      dictGet req.headers k = dictGet hdrs k) ∧
    (use_account_token = true →
      dictGet req.headers "Authorization" = some ("Bearer " ++ st.account_token.getD "")) ∧
    (use_account_token = false → ∀ t, agentTokenLookup st agent_symbol = some t →
      dictGet req.headers "Authorization" = some ("Bearer " ++ t)) := by
  have hh := make_request_ok_headers st clock method endpoint agent_symbol
    use_account_token hdrs data req h
  cases hu : use_account_token with
  | true =>
    rw [hu, if_pos rfl] at hh
    rw [hh]
    refine ⟨?_, ?_, fun _ => dictGet_dictSet_self _ _ _, fun hf => by simp at hf⟩
    · rw [dictGet_dictSet_ne _ _ _ _ (by decide)]
      exact dictGet_dictSet_self _ _ _
    · intro k hct hau
      rw [dictGet_dictSet_ne _ _ _ _ hau, dictGet_dictSet_ne _ _ _ _ hct]
  | false =>
    rw [hu, if_neg (by simp)] at hh
    cases hl : agentTokenLookup st agent_symbol with
    | some t =>
      rw [hl] at hh
      rw [hh]
      refine ⟨?_, ?_, fun htr => by simp at htr, ?_⟩
      · rw [dictGet_dictSet_ne _ _ _ _ (by decide)]
        exact dictGet_dictSet_self _ _ _
      · intro k hct hau
        rw [dictGet_dictSet_ne _ _ _ _ hau, dictGet_dictSet_ne _ _ _ _ hct]
      · intro _ t' hl'
        simp only [Option.some.injEq] at hl'
        subst hl'
        exact dictGet_dictSet_self _ _ _
    | none =>
      rw [hl] at hh
      rw [hh]
      refine ⟨dictGet_dictSet_self _ _ _, ?_, fun htr => by simp at htr, ?_⟩
      · intro k hct _
        exact dictGet_dictSet_ne _ _ _ _ hct
      · intro _ t' hl'
        simp at hl'

/-- Witness for C10: a caller-supplied `Content-Type: text/plain` is
overwritten with `application/json` while the custom header `X-Custom` is
forwarded unchanged. -/
theorem content_type_and_header_forwarding_witness :
    dictGet
      ((⟨"GET", "u/factions",
        dictSet [("Content-Type", "text/plain"), ("X-Custom", "1")]
          "Content-Type" "application/json", none⟩ : HttpRequest)).headers
      "Content-Type" = some "application/json" ∧
    dictGet
      ((⟨"GET", "u/factions",
        dictSet [("Content-Type", "text/plain"), ("X-Custom", "1")]
          "Content-Type" "application/json", none⟩ : HttpRequest)).headers
      "X-Custom" = dictGet [("Content-Type", "text/plain"), ("X-Custom", "1")] "X-Custom" := by
  have h := content_type_and_header_forwarding ⟨"u", [], 0, none, none⟩ 1 "GET" "factions"
    none false [("Content-Type", "text/plain"), ("X-Custom", "1")] none
    ⟨"GET", "u/factions",
      dictSet [("Content-Type", "text/plain"), ("X-Custom", "1")]
        "Content-Type" "application/json", none⟩
    (by simp [make_request, agentTokenLookup, lstripSlash])
  exact ⟨h.1, h.2.1 "X-Custom" (by decide) (by decide)⟩

/-- C8: on a creation (201) response the handler extracts `data.token` and
`data.agent.symbol` from the body and stores the token under the canonical
symbol; on any other status it returns the remote `error.message` verbatim
inside the failure message and leaves the credential store untouched. -/
theorem register_users_response_spec :
    (∀ (st : ClientState) (tok sym fac : String),
      register_handle_response st 201
        (Json.obj [("data", Json.obj [("token", Json.str tok),
          ("agent", Json.obj [("symbol", Json.str sym),
            ("startingFaction", Json.str fac)])])]) =
        some ("Successfully registered agent " ++ sym ++ " with faction " ++ fac ++
          ". Token has been stored for future use.", store_token st sym tok)) ∧
    (∀ (st : ClientState) (status : Nat) (body : Json) (m : String) (st' : ClientState),
      status ≠ 201 → register_handle_response st status body = some (m, st') →
      st' = st) ∧
    (∀ (st : ClientState) (status : Nat) (em : String), status ≠ 201 →
      register_handle_response st status
        (Json.obj [("error", Json.obj [("message", Json.str em)])]) =
        some ("Registration failed: " ++ em ++ " (Status code: " ++
          toString status ++ ")", st)) := by
  refine ⟨fun st tok sym fac => rfl, ?_, ?_⟩
  · intro st status body m st' hst h
    simp only [register_handle_response, if_neg hst] at h
    split at h
    · exact absurd h (by simp)
    · split at h
      · simp only [Option.some.injEq, Prod.mk.injEq] at h
        exact h.2.symm
      · exact absurd h (by simp)
  · intro st status em hst
    simp [register_handle_response, if_neg hst, pyGet, jsonLookup]

/-- Witness for C8: the registration scenario — a 201 response carrying token
`tok123` for agent `ALPHA` leaves the store mapping `ALPHA` to `tok123`, and a
409 response surfaces the remote message verbatim without touching the
store. -/
theorem register_users_response_spec_witness :
    register_handle_response ⟨"u", [], 0, some "acct", none⟩ 201
      (Json.obj [("data", Json.obj [("token", Json.str "tok123"),
        ("agent", Json.obj [("symbol", Json.str "ALPHA"),
          ("startingFaction", Json.str "COSMIC")])])]) =
      some ("Successfully registered agent ALPHA with faction COSMIC. Token has been stored for future use.",
        store_token ⟨"u", [], 0, some "acct", none⟩ "ALPHA" "tok123") ∧
    get_token (store_token ⟨"u", [], 0, some "acct", none⟩ "ALPHA" "tok123") "ALPHA"
      = some "tok123" ∧
    register_handle_response ⟨"u", [], 0, some "acct", none⟩ 409
      (Json.obj [("error", Json.obj [("message", Json.str "Agent symbol ALPHA taken")])]) =
      some ("Registration failed: Agent symbol ALPHA taken (Status code: 409)",
        ⟨"u", [], 0, some "acct", none⟩) :=
  ⟨register_users_response_spec.1 ⟨"u", [], 0, some "acct", none⟩ "tok123" "ALPHA" "COSMIC",
    by simp [get_token, store_token, save_tokens, dictGet, dictSet],
    register_users_response_spec.2.2 ⟨"u", [], 0, some "acct", none⟩ 409
      "Agent symbol ALPHA taken" (by decide)⟩

/-- Witness for C6: a malformed token file never loads as the empty store. -/
theorem load_tokens_spec_witness :
    load_tokens (some FileData.malformed) ≠ Except.ok [] :=
  load_tokens_spec.2.2.2 []

/-- Witness for C7: storing `tok123` under `ALPHA` makes `get_token` return
it, and a persisted one-entry mapping reloads identically. -/
theorem credential_roundtrip_witness :
    get_token (store_token ⟨"u", [("BETA", "t0")], 0, none, none⟩ "ALPHA" "tok123") "ALPHA"
      = some "tok123" ∧
    load_tokens (save_tokens ⟨"u", [("ALPHA", "tok123")], 0, none, none⟩).tokens_file
      = Except.ok [("ALPHA", "tok123")] :=
  ⟨(credential_roundtrip ⟨"u", [("BETA", "t0")], 0, none, none⟩ "ALPHA" "tok123").1,
    (credential_roundtrip ⟨"u", [], 0, none, none⟩ "ALPHA" "tok123").2
      ⟨"u", [("ALPHA", "tok123")], 0, none, none⟩⟩
